import Mathlib

/-!
Verification of the go_pipe library against its design specification.

We give a shallow embedding of two generations of the library:

* `GoPipe` — the current generation (`src/pipe.go`): the `Pipe` execution
  context with its three stream roles, the three redirection stacks with
  their stdout/stderr aliasing discipline, and `RunCommand`.
* `V3` — the sequence/controller generation (`src/v3/sequence.go`,
  the `ListController` and `PipelineController` files, and `Pipe.Next`
  from `src/v4`): the `Sequence` type and its two controller strategies.

Streams are modelled by an arena of text buffers (`buffers : List String`);
a stream slot holds `Option Nat` — `none` models a nil Go interface value,
`some i` a pointer to buffer `i`. Go's `==` on stream interface values is
instance identity, which the model renders as equality of buffer indices.
Go methods have nil-guarded pointer receivers; operations are defined on
a (non-nil) `Pipe` value, and claims about nil receivers are stated over
`Option` at the call sites that need them.
-/

namespace GoPipe

/-- Go `error` values that appear in this library: the synthesized
non-zero-status errors from `errors.go` (modelled from their use sites:
`ErrNonZeroStatusCode{"command", code}`, `ErrNonZeroStatusCode{"list", code}`,
`ErrPipelineNonZeroStatusCode{code}`), plus an opaque constructor for
arbitrary caller-supplied errors. A Go `nil` error is `Option.none`. -/
inductive GoError where
  | errNonZeroStatusCode (kind : String) (statusCode : Int)
  | errPipelineNonZeroStatusCode (statusCode : Int)
  | other (msg : String)
deriving DecidableEq, Repr

/-- `StatusOkay` from the package's status constants (`StatusOkay = iota`). -/
def StatusOkay : Int := 0

/-- `StatusNotOkay`, the next `iota` value. -/
def StatusNotOkay : Int := 1

/-- The `Pipe` struct from `src/pipe.go`. `Stdin`, `Stdout`, `Stderr` are
nilable stream references; the three stacks hold previously-active stream
references (Go `append`s to the end of the slice, so the top of each stack
is the last list element). `buffers` is the arena of text-buffer contents
backing the stream references; `Env` and `Flags` are carried by the Go
struct but never touched by the operations verified here, so they are not
modelled. -/
structure Pipe where
  Stdin : Option Nat
  Stdout : Option Nat
  Stderr : Option Nat
  stdinStack : List (Option Nat)
  stdoutStack : List (Option Nat)
  stderrStack : List (Option Nat)
  err : Option GoError
  statusCode : Int
  buffers : List String
deriving DecidableEq, Repr

/-- Reading a stream slot of a pipe: `none` if the slot is nil or dangling,
otherwise the contents of the buffer it points at. -/
def Pipe.bufRead (p : Pipe) (slot : Option Nat) : Option String :=
  slot.bind fun i => p.buffers[i]?

/-- `SetNewStdin` (`src/pipe.go`): point `Stdin` at a freshly allocated
empty buffer. -/
def Pipe.SetNewStdin (p : Pipe) : Pipe :=
  { p with Stdin := some p.buffers.length, buffers := p.buffers ++ [""] }

/-- `SetNewStdout` (`src/pipe.go`): point `Stdout` at a freshly allocated
empty buffer. -/
def Pipe.SetNewStdout (p : Pipe) : Pipe :=
  { p with Stdout := some p.buffers.length, buffers := p.buffers ++ [""] }

/-- `SetNewStderr` (`src/pipe.go`): point `Stderr` at a freshly allocated
empty buffer. -/
def Pipe.SetNewStderr (p : Pipe) : Pipe :=
  { p with Stderr := some p.buffers.length, buffers := p.buffers ++ [""] }

/-- `ResetBuffers` (`src/pipe.go`): new empty Stdin, Stdout and Stderr,
and all three internal stacks emptied. -/
def Pipe.ResetBuffers (p : Pipe) : Pipe :=
  let p1 := p.SetNewStdin.SetNewStdout.SetNewStderr
  { p1 with stdinStack := [], stdoutStack := [], stderrStack := [] }

/-- `ResetError` (`src/pipe.go`): status code and error back to their zero
values `(StatusOkay, nil)`. -/
def Pipe.ResetError (p : Pipe) : Pipe :=
  { p with statusCode := StatusOkay, err := none }

/-- The zero value of the Go `Pipe` struct, before `NewPipe` resets it:
nil streams, nil slices, nil error, zero status, empty arena. -/
def zeroPipe : Pipe :=
  { Stdin := none, Stdout := none, Stderr := none,
    stdinStack := [], stdoutStack := [], stderrStack := [],
    err := none, statusCode := 0, buffers := [] }

/-- `NewPipe` (`src/pipe.go`): reset buffers and error on a zero-valued
pipe, then apply the caller's option functions in order. -/
def NewPipe (options : List (Pipe → Pipe)) : Pipe :=
  options.foldl (fun p o => o p) zeroPipe.ResetBuffers.ResetError

/-- `PipeCommand`: a Go function `func(*Pipe) (int, error)`. It receives
the pipe by pointer, so the model lets it transform the pipe as well as
return the status/error pair. -/
abbrev PipeCommand := Pipe → Pipe × Int × Option GoError

/-- `RunCommand` (`src/pipe.go`): no-op without Stdin and Stdout; otherwise
run the command, store its returned status and error, and synthesize an
`ErrNonZeroStatusCode` when the status is non-okay but the error is nil. -/
def Pipe.RunCommand (p : Pipe) (c : PipeCommand) : Pipe :=
  if p.Stdin = none ∨ p.Stdout = none then p
  else
    let r := c p
    let p2 := { r.1 with statusCode := r.2.1, err := r.2.2 }
    if r.2.1 ≠ StatusOkay ∧ r.2.2 = none then
      { p2 with err := some (GoError.errNonZeroStatusCode "command" r.2.1) }
    else p2

/-- `Error` (`src/pipe.go`): the stored error. -/
def Pipe.Error (p : Pipe) : Option GoError := p.err

/-- `Okay` (`src/pipe.go`): whether the stored error is nil. -/
def Pipe.Okay (p : Pipe) : Bool := p.err.isNone

/-- `StatusCode` (`src/pipe.go`): the stored status code. -/
def Pipe.StatusCode (p : Pipe) : Int := p.statusCode

/-- `PushStdin` (`src/pipe.go`): append the current Stdin to the stack,
then install the new one. -/
def Pipe.PushStdin (p : Pipe) (newStdin : Option Nat) : Pipe :=
  { p with stdinStack := p.stdinStack ++ [p.Stdin], Stdin := newStdin }

/-- `PopStdin` (`src/pipe.go`): restore Stdin from the top of the stack;
no-op on an empty stack. -/
def Pipe.PopStdin (p : Pipe) : Pipe :=
  match p.stdinStack.getLast? with
  | none => p
  | some top => { p with Stdin := top, stdinStack := p.stdinStack.dropLast }

/-- `StdinStackLen` (`src/pipe.go`). -/
def Pipe.StdinStackLen (p : Pipe) : Nat := p.stdinStack.length

/-- `PushStdout` (`src/pipe.go`): if Stdout and Stderr are the same
instance, retarget Stderr to the new stream too; then append the old
Stdout to the stdout stack (once) and install the new one. -/
def Pipe.PushStdout (p : Pipe) (newStdout : Option Nat) : Pipe :=
  let p1 := if p.Stdout = p.Stderr then { p with Stderr := newStdout } else p
  { p1 with stdoutStack := p1.stdoutStack ++ [p1.Stdout], Stdout := newStdout }

/-- `PopStdout` (`src/pipe.go`): pop the old Stdout; if, at the moment of
the pop, Stdout and Stderr are the same instance, restore both roles to
it; no-op on an empty stack. -/
def Pipe.PopStdout (p : Pipe) : Pipe :=
  match p.stdoutStack.getLast? with
  | none => p
  | some oldStdout =>
    let p1 := { p with stdoutStack := p.stdoutStack.dropLast }
    let p2 := if p1.Stdout = p1.Stderr then { p1 with Stderr := oldStdout } else p1
    { p2 with Stdout := oldStdout }

/-- `PopStdoutOnly` (`src/pipe.go`): restore only Stdout, never touching
Stderr; no-op on an empty stack. -/
def Pipe.PopStdoutOnly (p : Pipe) : Pipe :=
  match p.stdoutStack.getLast? with
  | none => p
  | some top => { p with Stdout := top, stdoutStack := p.stdoutStack.dropLast }

/-- `StdoutStackLen` (`src/pipe.go`). -/
def Pipe.StdoutStackLen (p : Pipe) : Nat := p.stdoutStack.length

/-- `PushStderr` (`src/pipe.go`): if Stdout and Stderr are the same
instance, retarget Stdout to the new stream too; then append the old
Stderr to the stderr stack (once) and install the new one. -/
def Pipe.PushStderr (p : Pipe) (newStderr : Option Nat) : Pipe :=
  let p1 := if p.Stdout = p.Stderr then { p with Stdout := newStderr } else p
  { p1 with stderrStack := p1.stderrStack ++ [p1.Stderr], Stderr := newStderr }

/-- `PopStderr` (`src/pipe.go`): pop the old Stderr; if, at the moment of
the pop, Stdout and Stderr are the same instance, restore both roles to
it; no-op on an empty stack. -/
def Pipe.PopStderr (p : Pipe) : Pipe :=
  match p.stderrStack.getLast? with
  | none => p
  | some oldStderr =>
    let p1 := { p with stderrStack := p.stderrStack.dropLast }
    let p2 := if p1.Stdout = p1.Stderr then { p1 with Stdout := oldStderr } else p1
    { p2 with Stderr := oldStderr }

/-- `PopStderrOnly` (`src/pipe.go`): restore only Stderr, never touching
Stdout; no-op on an empty stack. -/
def Pipe.PopStderrOnly (p : Pipe) : Pipe :=
  match p.stderrStack.getLast? with
  | none => p
  | some top => { p with Stderr := top, stderrStack := p.stderrStack.dropLast }

/-- `StderrStackLen` (`src/pipe.go`). -/
def Pipe.StderrStackLen (p : Pipe) : Nat := p.stderrStack.length

end GoPipe

namespace V3

/-!
The sequence/controller generation: `Sequence` and `Exec` from
`src/v3/sequence.go`, the `ListController` and `PipelineController`
strategies, the pipe of that generation (`Stdin *Source`,
`Stdout`/`Stderr *Dest`), and the rotation primitive `Pipe.Next` from
`src/v4/pipe.go`. Streams here are nilable pointers to text buffers whose
identity plays no role in the controller claims, so a stream slot is
modelled by its contents: `Option String`, `none` for a nil pointer.
-/

/-- The pipe of the sequence/controller generation: nilable `Stdin`,
`Stdout`, `Stderr` buffers plus the stored status/error pair (which the
controllers never read — they keep their own). -/
structure Pipe where
  Stdin : Option String
  Stdout : Option String
  Stderr : Option String
  err : Option GoPipe.GoError
  statusCode : Int
deriving DecidableEq, Repr

/-- `NewPipe` of this generation: empty Stdin, Stdout and Stderr buffers,
status `StatusOkay`, nil error. -/
def NewPipe : Pipe :=
  { Stdin := some "", Stdout := some "", Stderr := some "",
    err := none, statusCode := GoPipe.StatusOkay }

/-- `Pipe.Next` (`src/v4/pipe.go`): rotation between pipeline stages.
No-op when any stream is nil; otherwise the contents of Stdout become the
new Stdin (`p.Stdin = p.Stdout.NewSource()`), and Stdout and Stderr are
replaced by fresh empty buffers. -/
def Pipe.Next (p : Pipe) : Pipe :=
  if p.Stdin = none ∨ p.Stdout = none ∨ p.Stderr = none then p
  else { p with Stdin := p.Stdout, Stdout := some "", Stderr := some "" }

/-- `Command`: `func(*Pipe) (int, error)` of this generation. -/
abbrev Command := Pipe → Pipe × Int × Option GoPipe.GoError

/-- The two concrete controller strategies; a `Sequence`'s `Controller`
field holds one of these (or `none` for the Go nil function field). -/
inductive ControllerKind where
  | list
  | pipeline
deriving DecidableEq, Repr

/-- `Sequence` (`src/v3/sequence.go`): a nilable pipe, the ordered steps,
the last status/error pair, and the controller strategy installed by
`NewList` / `NewPipeline` (the `Env` field is never touched by the
controllers and is not modelled). -/
structure Sequence where
  Pipe : Option Pipe
  Steps : List Command
  Err : Option GoPipe.GoError
  StatusCode : Int
  Controller : Option ControllerKind

/-- `NewSequence` (`src/v3/sequence.go`): fresh pipe, the given steps,
nil error, `StatusOkay`, no controller installed yet. -/
def NewSequence (steps : List Command) : Sequence :=
  { Pipe := some NewPipe, Steps := steps, Err := none,
    StatusCode := GoPipe.StatusOkay, Controller := none }

/-- `NewList`: a sequence driven by the list controller. -/
def NewList (steps : List Command) : Sequence :=
  { NewSequence steps with Controller := some ControllerKind.list }

/-- `NewPipeline`: a sequence driven by the pipeline controller. -/
def NewPipeline (steps : List Command) : Sequence :=
  { NewSequence steps with Controller := some ControllerKind.pipeline }

/-- The loop body of `ListController`: `sq.StatusCode, sq.Err = step(sq.Pipe)`
for every step in order, each step mutating the shared pipe; the incoming
status/error are overwritten by each step and never inspected. -/
def runListSteps : List Command → Pipe × Int × Option GoPipe.GoError →
    Pipe × Int × Option GoPipe.GoError
  | [], st => st
  | c :: rest, (p, _, _) => runListSteps rest (c p)

/-- `ListController` (list controller source file): nil-sequence and
nil-pipe guards, then the loop over every step, then the synthesized
`ErrNonZeroStatusCode{"list", code}` when the final status is non-okay
and the final error nil. -/
def ListControllerRun : Option Sequence → Option Sequence
  | none => none
  | some sq =>
    match sq.Pipe with
    | none => some sq
    | some p =>
      let r := runListSteps sq.Steps (p, sq.StatusCode, sq.Err)
      let e := if r.2.1 ≠ GoPipe.StatusOkay ∧ r.2.2 = none then
          some (GoPipe.GoError.errNonZeroStatusCode "list" r.2.1)
        else r.2.2
      some { sq with Pipe := some r.1, StatusCode := r.2.1, Err := e }

/-- The loop body of `PipelineController`: rotate with `sq.Pipe.Next()`,
run the step, store its status/error, and return early the moment the
stored error is non-nil. -/
def runPipelineSteps : List Command → Pipe × Int × Option GoPipe.GoError →
    Pipe × Int × Option GoPipe.GoError
  | [], st => st
  | c :: rest, (p, _, _) =>
    let r := c p.Next
    if r.2.2 ≠ none then r
    else runPipelineSteps rest r

/-- `PipelineController` (pipeline controller source file): nil-sequence
and nil-pipe guards, the halt-on-error loop, then the synthesized
`ErrPipelineNonZeroStatusCode{code}` when the loop finished with a
non-okay status and a nil error. (The Go early `return` skips that final
check, but an early return happens only with a non-nil error, for which
the check does nothing anyway.) -/
def PipelineControllerRun : Option Sequence → Option Sequence
  | none => none
  | some sq =>
    match sq.Pipe with
    | none => some sq
    | some p =>
      let r := runPipelineSteps sq.Steps (p, sq.StatusCode, sq.Err)
      let e := if r.2.1 ≠ GoPipe.StatusOkay ∧ r.2.2 = none then
          some (GoPipe.GoError.errPipelineNonZeroStatusCode r.2.1)
        else r.2.2
      some { sq with Pipe := some r.1, StatusCode := r.2.1, Err := e }

/-- `Sequence.Exec` (`src/v3/sequence.go`): nil-sequence guard, nil
controller guard, then dispatch to the controller closure installed at
construction (which captured this same sequence). -/
def Exec : Option Sequence → Option Sequence
  | none => none
  | some sq =>
    match sq.Controller with
    | none => some sq
    | some ControllerKind.list => ListControllerRun (some sq)
    | some ControllerKind.pipeline => PipelineControllerRun (some sq)

/-- A command body that appends `s` to the pipe's Stdout, as the test
commands in this repository do with `p.Stdout.WriteString(s)` (a nil
Stdout would fault in Go; the model leaves it nil). -/
def writeStdout (s : String) (p : Pipe) : Pipe :=
  { p with Stdout := p.Stdout.map (· ++ s) }

end V3

namespace GoPipe

/-- Reading a freshly allocated slot after further allocations still
yields the empty string. -/
lemma bufRead_fresh (l : List String) (extra : List String) :
    (l ++ ([""] ++ extra))[l.length]? = some "" := by
  rw [List.getElem?_append_right (by omega)]
  simp

/-- C8: a pipe freshly constructed by `NewPipe` with no option functions
has an empty Stdin, an empty Stdout, an empty Stderr, `StatusCode()`
equal to `StatusOkay`, `Error()` equal to `nil`, and all three
redirection stacks of length 0. -/
theorem newPipe_default_state :
    (NewPipe []).bufRead (NewPipe []).Stdin = some "" ∧
    (NewPipe []).bufRead (NewPipe []).Stdout = some "" ∧
    (NewPipe []).bufRead (NewPipe []).Stderr = some "" ∧
    (NewPipe []).StatusCode = StatusOkay ∧
    (NewPipe []).Error = none ∧
    (NewPipe []).StdinStackLen = 0 ∧
    (NewPipe []).StdoutStackLen = 0 ∧
    (NewPipe []).StderrStackLen = 0 := by
  decide

/-- C10: `ResetBuffers` on a (non-nil) pipe replaces Stdin, Stdout and
Stderr with fresh empty buffers and resets all three redirection stacks
to length 0, while leaving the stored status code and stored error
unchanged. -/
theorem resetBuffers_frame (p : Pipe) :
    p.ResetBuffers.bufRead p.ResetBuffers.Stdin = some "" ∧
    p.ResetBuffers.bufRead p.ResetBuffers.Stdout = some "" ∧
    p.ResetBuffers.bufRead p.ResetBuffers.Stderr = some "" ∧
    p.ResetBuffers.StdinStackLen = 0 ∧
    p.ResetBuffers.StdoutStackLen = 0 ∧
    p.ResetBuffers.StderrStackLen = 0 ∧
    p.ResetBuffers.statusCode = p.statusCode ∧
    p.ResetBuffers.err = p.err := by
  refine ⟨?_, ?_, ?_, rfl, rfl, rfl, rfl, rfl⟩ <;>
    simp only [Pipe.ResetBuffers, Pipe.SetNewStdin, Pipe.SetNewStdout, Pipe.SetNewStderr,
      Pipe.bufRead, Option.bind_some, List.append_assoc, List.length_append,
      List.length_cons, List.length_nil]
  · exact bufRead_fresh p.buffers ["", ""]
  · show (p.buffers ++ ([""] ++ ([""] ++ [""])))[p.buffers.length + 1]? = some ""
    rw [List.getElem?_append_right (by omega)]
    simp
  · show (p.buffers ++ ([""] ++ ([""] ++ [""])))[p.buffers.length + 1 + 1]? = some ""
    rw [List.getElem?_append_right (by omega)]
    have h2 : p.buffers.length + 1 + 1 - p.buffers.length = 2 := by omega
    rw [h2]
    rfl

/-- C3: for every pipe with non-nil Stdin and Stdout, and every command
returning `(s, nil)` with `s ≠ StatusOkay`, after `RunCommand` the pipe's
stored status is `s` and its stored error is the non-nil synthesized
`ErrNonZeroStatusCode` carrying `s`. -/
theorem runCommand_nonzero_status_synthesizes_error
    (p : Pipe) (c : PipeCommand) (s : Int)
    (hin : p.Stdin ≠ none) (hout : p.Stdout ≠ none)
    (hs : (c p).2.1 = s) (he : (c p).2.2 = none) (hns : s ≠ StatusOkay) :
    (p.RunCommand c).statusCode = s ∧
    (p.RunCommand c).err = some (GoError.errNonZeroStatusCode "command" s) ∧
    (p.RunCommand c).err ≠ none := by
  simp [Pipe.RunCommand, hin, hout, hs, he, hns]

/-- Witness for C3 at a concrete pipe and command. -/
theorem runCommand_nonzero_status_synthesizes_error_witness :
    ((NewPipe []).RunCommand (fun p => (p, 1, none))).statusCode = 1 ∧
    ((NewPipe []).RunCommand (fun p => (p, 1, none))).err =
      some (GoError.errNonZeroStatusCode "command" 1) := by
  have h := runCommand_nonzero_status_synthesizes_error
    (NewPipe []) (fun p => (p, 1, none)) 1
    (by decide) (by decide) rfl rfl (by decide)
  exact ⟨h.1, h.2.1⟩

/-- C9: `RunCommand` stores a command's results verbatim when the status
is the success sentinel — for a command returning `(StatusOkay, e)` with
`e` non-nil, the pipe keeps `StatusOkay` together with the error `e`
(no synthesis or clearing), so `Okay()` is false even though
`StatusCode()` reports success. -/
theorem runCommand_okay_status_keeps_error
    (p : Pipe) (c : PipeCommand) (e : GoError)
    (hin : p.Stdin ≠ none) (hout : p.Stdout ≠ none)
    (hs : (c p).2.1 = StatusOkay) (he : (c p).2.2 = some e) :
    (p.RunCommand c).StatusCode = StatusOkay ∧
    (p.RunCommand c).Error = some e ∧
    (p.RunCommand c).Okay = false := by
  simp [Pipe.RunCommand, Pipe.StatusCode, Pipe.Error, Pipe.Okay, hin, hout, hs, he]

/-- C1: aliasing invariant of the redirection stacks. If Stdout and
Stderr are the identical stream instance, `PushStdout X` sets both roles
to `X` while pushing the previously-active value once onto the stdout
stack only; a paired `PopStdout` restores both roles to the pre-push
value; `PopStdoutOnly` restores only Stdout, leaving Stderr equal to `X`
(and symmetrically for `PushStderr` / `PopStderr` / `PopStderrOnly`).
If Stdout and Stderr are distinct instances, pushing or popping one role
never changes the other role. -/
theorem pushpop_alias_invariant (p : Pipe) (X : Option Nat) :
    (p.Stdout = p.Stderr →
      ((p.PushStdout X).Stdout = X ∧
       (p.PushStdout X).Stderr = X ∧
       (p.PushStdout X).stdoutStack = p.stdoutStack ++ [p.Stdout] ∧
       (p.PushStdout X).stderrStack = p.stderrStack ∧
       (p.PushStdout X).PopStdout.Stdout = p.Stdout ∧
       (p.PushStdout X).PopStdout.Stderr = p.Stderr ∧
       (p.PushStdout X).PopStdoutOnly.Stdout = p.Stdout ∧
       (p.PushStdout X).PopStdoutOnly.Stderr = X ∧
       (p.PushStderr X).Stdout = X ∧
       (p.PushStderr X).Stderr = X ∧
       (p.PushStderr X).stderrStack = p.stderrStack ++ [p.Stderr] ∧
       (p.PushStderr X).stdoutStack = p.stdoutStack ∧
       (p.PushStderr X).PopStderr.Stderr = p.Stderr ∧
       (p.PushStderr X).PopStderr.Stdout = p.Stdout ∧
       (p.PushStderr X).PopStderrOnly.Stderr = p.Stderr ∧
       (p.PushStderr X).PopStderrOnly.Stdout = X)) ∧
    (p.Stdout ≠ p.Stderr →
      ((p.PushStdout X).Stderr = p.Stderr ∧
       (p.PushStdout X).stderrStack = p.stderrStack ∧
       (p.PushStderr X).Stdout = p.Stdout ∧
       (p.PushStderr X).stdoutStack = p.stdoutStack ∧
       p.PopStdout.Stderr = p.Stderr ∧
       p.PopStdout.stderrStack = p.stderrStack ∧
       p.PopStdoutOnly.Stderr = p.Stderr ∧
       p.PopStderr.Stdout = p.Stdout ∧
       p.PopStderr.stdoutStack = p.stdoutStack ∧
       p.PopStderrOnly.Stdout = p.Stdout)) := by
  constructor
  · intro h
    refine ⟨?_, ?_, ?_, ?_, ?_, ?_, ?_, ?_, ?_, ?_, ?_, ?_, ?_, ?_, ?_, ?_⟩ <;>
      simp [Pipe.PushStdout, Pipe.PushStderr, Pipe.PopStdout, Pipe.PopStdoutOnly,
        Pipe.PopStderr, Pipe.PopStderrOnly, h, List.getLast?_concat, List.dropLast_concat]
  · intro h
    have hpopout : p.PopStdout.Stderr = p.Stderr ∧ p.PopStdout.stderrStack = p.stderrStack := by
      cases hst : p.stdoutStack.getLast? <;>
        simp [Pipe.PopStdout, hst, h]
    have hpoperr : p.PopStderr.Stdout = p.Stdout ∧ p.PopStderr.stdoutStack = p.stdoutStack := by
      cases hst : p.stderrStack.getLast? <;>
        simp [Pipe.PopStderr, hst, h]
    have hpopouto : p.PopStdoutOnly.Stderr = p.Stderr := by
      cases hst : p.stdoutStack.getLast? <;> simp [Pipe.PopStdoutOnly, hst]
    have hpoperro : p.PopStderrOnly.Stdout = p.Stdout := by
      cases hst : p.stderrStack.getLast? <;> simp [Pipe.PopStderrOnly, hst]
    refine ⟨?_, ?_, ?_, ?_, hpopout.1, hpopout.2, hpopouto, hpoperr.1, hpoperr.2, hpoperro⟩ <;>
      simp [Pipe.PushStdout, Pipe.PushStderr, h]

/-- Witness for C1: the aliased case at a pipe whose Stdout and Stderr
both point at buffer 1, and the distinct case at a fresh `NewPipe`. -/
theorem pushpop_alias_invariant_witness :
    (let base := NewPipe []
     let pA := { base with Stderr := base.Stdout }
     (pA.PushStdout (some 7)).Stdout = some 7 ∧
     (pA.PushStdout (some 7)).Stderr = some 7 ∧
     (pA.PushStdout (some 7)).PopStdout.Stderr = pA.Stderr) ∧
    (let base := NewPipe []
     (base.PushStdout (some 7)).Stderr = base.Stderr ∧
     base.PopStderr.Stdout = base.Stdout) := by
  constructor
  · have h := (pushpop_alias_invariant
      { NewPipe [] with Stderr := (NewPipe []).Stdout } (some 7)).1 rfl
    exact ⟨h.1, h.2.1, h.2.2.2.2.2.1⟩
  · have h := (pushpop_alias_invariant (NewPipe []) (some 7)).2 (by decide)
    exact ⟨h.1, h.2.2.2.2.2.2.2.1⟩

/-- A sequence of `PushStdin` calls, one per element of `xs`, in order. -/
def pushStdinAll (p : Pipe) (xs : List (Option Nat)) : Pipe :=
  xs.foldl Pipe.PushStdin p

/-- A sequence of `PushStdout` calls, one per element of `xs`, in order. -/
def pushStdoutAll (p : Pipe) (xs : List (Option Nat)) : Pipe :=
  xs.foldl Pipe.PushStdout p

/-- A sequence of `PushStderr` calls, one per element of `xs`, in order. -/
def pushStderrAll (p : Pipe) (xs : List (Option Nat)) : Pipe :=
  xs.foldl Pipe.PushStderr p

lemma pushStdout_stack (p : Pipe) (x : Option Nat) :
    (p.PushStdout x).stdoutStack = p.stdoutStack ++ [p.Stdout] ∧
      (p.PushStdout x).Stdout = x := by
  simp only [Pipe.PushStdout]
  split <;> simp

lemma pushStderr_stack (p : Pipe) (x : Option Nat) :
    (p.PushStderr x).stderrStack = p.stderrStack ++ [p.Stderr] ∧
      (p.PushStderr x).Stderr = x := by
  simp only [Pipe.PushStderr]
  split <;> simp

lemma popStdout_of_concat (q : Pipe) (s : List (Option Nat)) (v : Option Nat)
    (h : q.stdoutStack = s ++ [v]) :
    q.PopStdout.stdoutStack = s ∧ q.PopStdout.Stdout = v := by
  simp only [Pipe.PopStdout, h, List.getLast?_concat, List.dropLast_concat]
  split <;> simp

lemma popStderr_of_concat (q : Pipe) (s : List (Option Nat)) (v : Option Nat)
    (h : q.stderrStack = s ++ [v]) :
    q.PopStderr.stderrStack = s ∧ q.PopStderr.Stderr = v := by
  simp only [Pipe.PopStderr, h, List.getLast?_concat, List.dropLast_concat]
  split <;> simp

lemma pushStdinAll_len (xs : List (Option Nat)) : ∀ p : Pipe,
    (pushStdinAll p xs).stdinStack.length = p.stdinStack.length + xs.length := by
  induction xs with
  | nil => intro p; simp [pushStdinAll]
  | cons x xs ih =>
    intro p
    have : pushStdinAll p (x :: xs) = pushStdinAll (p.PushStdin x) xs := rfl
    rw [this, ih]
    simp [Pipe.PushStdin]
    omega

lemma pushStdoutAll_len (xs : List (Option Nat)) : ∀ p : Pipe,
    (pushStdoutAll p xs).stdoutStack.length = p.stdoutStack.length + xs.length := by
  induction xs with
  | nil => intro p; simp [pushStdoutAll]
  | cons x xs ih =>
    intro p
    have h1 : pushStdoutAll p (x :: xs) = pushStdoutAll (p.PushStdout x) xs := rfl
    rw [h1, ih, (pushStdout_stack p x).1]
    simp
    omega

lemma pushStderrAll_len (xs : List (Option Nat)) : ∀ p : Pipe,
    (pushStderrAll p xs).stderrStack.length = p.stderrStack.length + xs.length := by
  induction xs with
  | nil => intro p; simp [pushStderrAll]
  | cons x xs ih =>
    intro p
    have h1 : pushStderrAll p (x :: xs) = pushStderrAll (p.PushStderr x) xs := rfl
    rw [h1, ih, (pushStderr_stack p x).1]
    simp
    omega

lemma popStdinAll_roundtrip (xs : List (Option Nat)) : ∀ p : Pipe,
    (Pipe.PopStdin^[xs.length] (pushStdinAll p xs)).stdinStack = p.stdinStack ∧
      (Pipe.PopStdin^[xs.length] (pushStdinAll p xs)).Stdin = p.Stdin := by
  induction xs with
  | nil => intro p; simp [pushStdinAll]
  | cons x xs ih =>
    intro p
    have h1 : pushStdinAll p (x :: xs) = pushStdinAll (p.PushStdin x) xs := rfl
    rw [h1, List.length_cons, Function.iterate_succ_apply']
    have h2 := ih (p.PushStdin x)
    have hstack : (Pipe.PopStdin^[xs.length] (pushStdinAll (p.PushStdin x) xs)).stdinStack
        = p.stdinStack ++ [p.Stdin] := by
      rw [h2.1]; simp [Pipe.PushStdin]
    simp [Pipe.PopStdin, hstack, List.getLast?_concat, List.dropLast_concat]

lemma popStdoutAll_roundtrip (xs : List (Option Nat)) : ∀ p : Pipe,
    (Pipe.PopStdout^[xs.length] (pushStdoutAll p xs)).stdoutStack = p.stdoutStack ∧
      (Pipe.PopStdout^[xs.length] (pushStdoutAll p xs)).Stdout = p.Stdout := by
  induction xs with
  | nil => intro p; simp [pushStdoutAll]
  | cons x xs ih =>
    intro p
    have h1 : pushStdoutAll p (x :: xs) = pushStdoutAll (p.PushStdout x) xs := rfl
    rw [h1, List.length_cons, Function.iterate_succ_apply']
    have h2 := ih (p.PushStdout x)
    have hstack : (Pipe.PopStdout^[xs.length] (pushStdoutAll (p.PushStdout x) xs)).stdoutStack
        = p.stdoutStack ++ [p.Stdout] := by
      rw [h2.1]; exact (pushStdout_stack p x).1
    exact popStdout_of_concat _ _ _ hstack

lemma popStderrAll_roundtrip (xs : List (Option Nat)) : ∀ p : Pipe,
    (Pipe.PopStderr^[xs.length] (pushStderrAll p xs)).stderrStack = p.stderrStack ∧
      (Pipe.PopStderr^[xs.length] (pushStderrAll p xs)).Stderr = p.Stderr := by
  induction xs with
  | nil => intro p; simp [pushStderrAll]
  | cons x xs ih =>
    intro p
    have h1 : pushStderrAll p (x :: xs) = pushStderrAll (p.PushStderr x) xs := rfl
    rw [h1, List.length_cons, Function.iterate_succ_apply']
    have h2 := ih (p.PushStderr x)
    have hstack : (Pipe.PopStderr^[xs.length] (pushStderrAll (p.PushStderr x) xs)).stderrStack
        = p.stderrStack ++ [p.Stderr] := by
      rw [h2.1]; exact (pushStderr_stack p x).1
    exact popStderr_of_concat _ _ _ hstack

/-- Counterexample to C5 as stated: "for every pipe, after N consecutive
pushes the stack length equals N" fails on a pipe whose stack is not
empty beforehand. Concretely, pushing once (N = 1) on a pipe that already
carries one pushed-away Stdin yields stack length 2, not 1. -/
theorem stack_roundtrip_claim_cex :
    ¬ ((((NewPipe []).PushStdin (some 0)).PushStdin none).StdinStackLen = 1) := by
  decide

/-- C5 as amended: for every pipe and every role, N consecutive pushes
grow that role's stack length by exactly N (hence the length is N when
the stack starts empty, as on a fresh pipe), and N pushes followed by N
paired pops return both the stack and the role's active stream to their
pre-push values. -/
theorem stack_roundtrip_amended (p : Pipe) (xs ys zs : List (Option Nat)) :
    (pushStdinAll p xs).StdinStackLen = p.StdinStackLen + xs.length ∧
    (Pipe.PopStdin^[xs.length] (pushStdinAll p xs)).StdinStackLen = p.StdinStackLen ∧
    (Pipe.PopStdin^[xs.length] (pushStdinAll p xs)).Stdin = p.Stdin ∧
    (pushStdoutAll p ys).StdoutStackLen = p.StdoutStackLen + ys.length ∧
    (Pipe.PopStdout^[ys.length] (pushStdoutAll p ys)).StdoutStackLen = p.StdoutStackLen ∧
    (Pipe.PopStdout^[ys.length] (pushStdoutAll p ys)).Stdout = p.Stdout ∧
    (pushStderrAll p zs).StderrStackLen = p.StderrStackLen + zs.length ∧
    (Pipe.PopStderr^[zs.length] (pushStderrAll p zs)).StderrStackLen = p.StderrStackLen ∧
    (Pipe.PopStderr^[zs.length] (pushStderrAll p zs)).Stderr = p.Stderr := by
  refine ⟨pushStdinAll_len xs p, ?_, (popStdinAll_roundtrip xs p).2,
    pushStdoutAll_len ys p, ?_, (popStdoutAll_roundtrip ys p).2,
    pushStderrAll_len zs p, ?_, (popStderrAll_roundtrip zs p).2⟩
  · show _ = p.stdinStack.length
    rw [Pipe.StdinStackLen, (popStdinAll_roundtrip xs p).1]
  · show _ = p.stdoutStack.length
    rw [Pipe.StdoutStackLen, (popStdoutAll_roundtrip ys p).1]
  · show _ = p.stderrStack.length
    rw [Pipe.StderrStackLen, (popStderrAll_roundtrip zs p).1]

/-- Witness for C9 at a concrete pipe and command. -/
theorem runCommand_okay_status_keeps_error_witness :
    ((NewPipe []).RunCommand (fun p => (p, StatusOkay, some (GoError.other "boom")))).StatusCode
        = StatusOkay ∧
    ((NewPipe []).RunCommand (fun p => (p, StatusOkay, some (GoError.other "boom")))).Error
        = some (GoError.other "boom") ∧
    ((NewPipe []).RunCommand (fun p => (p, StatusOkay, some (GoError.other "boom")))).Okay
        = false :=
  runCommand_okay_status_keeps_error (NewPipe [])
    (fun p => (p, StatusOkay, some (GoError.other "boom"))) (GoError.other "boom")
    (by decide) (by decide) rfl rfl

end GoPipe

namespace V3

/-- C2: a pipeline whose steps are S1 (writes "a" to stdout, succeeds),
S2 (writes `w`, fails with the non-nil error `e` after the rotation has
moved "a" into Stdin and substituted a fresh empty Stdout), S3 (writes
"b"). After `Exec`, S3 never ran: the final Stdout holds only what S2
itself wrote, Stdin still holds the rotated "a", and the recorded error
is the non-nil `e`. -/
theorem pipeline_halt_on_error_scenario (w : String) (e : GoPipe.GoError) :
    (let S1 : Command := fun p => (writeStdout "a" p, GoPipe.StatusOkay, none)
     let S2 : Command := fun p => (writeStdout w p, GoPipe.StatusNotOkay, some e)
     let S3 : Command := fun p => (writeStdout "b" p, GoPipe.StatusOkay, none)
     Exec (some (NewPipeline [S1, S2, S3])) =
       some { Pipe := some { Stdin := some "a", Stdout := some w, Stderr := some "",
                             err := none, statusCode := GoPipe.StatusOkay },
              Steps := [S1, S2, S3], Err := some e,
              StatusCode := GoPipe.StatusNotOkay,
              Controller := some ControllerKind.pipeline }) := by
  rfl

lemma runListSteps_append (cs₁ cs₂ : List Command) :
    ∀ st : Pipe × Int × Option GoPipe.GoError,
      runListSteps (cs₁ ++ cs₂) st = runListSteps cs₂ (runListSteps cs₁ st) := by
  induction cs₁ with
  | nil => intro st; rfl
  | cons c cs ih =>
    intro st
    obtain ⟨p, s, e⟩ := st
    exact ih (c p)

/-- C4: the list controller never stops early — appending more steps
just keeps running them on the accumulated state (first conjunct); for
any list sequence over a non-nil pipe with steps `cs ++ [c]`, `Exec`
produces exactly what the last step `c` returned, with the non-zero
status error synthesized only when the final status is non-okay and the
final error nil (second conjunct); and in the concrete scenario
[S1 fails, S2 succeeds] both steps ran (both writes are visible, in
insertion order) and the final status/error reflect only S2 (third
conjunct). -/
theorem list_controller_runs_all_steps :
    (∀ (cs₁ cs₂ : List Command) (st : Pipe × Int × Option GoPipe.GoError),
      runListSteps (cs₁ ++ cs₂) st = runListSteps cs₂ (runListSteps cs₁ st)) ∧
    (∀ (p : Pipe) (cs : List Command) (c : Command) (s0 : Int)
        (e0 : Option GoPipe.GoError),
      Exec (some { Pipe := some p, Steps := cs ++ [c], Err := e0, StatusCode := s0,
                   Controller := some ControllerKind.list }) =
        (let r := c (runListSteps cs (p, s0, e0)).1
         some { Pipe := some r.1, Steps := cs ++ [c],
                StatusCode := r.2.1,
                Err := if r.2.1 ≠ GoPipe.StatusOkay ∧ r.2.2 = none then
                    some (GoPipe.GoError.errNonZeroStatusCode "list" r.2.1)
                  else r.2.2,
                Controller := some ControllerKind.list })) ∧
    (let S1 : Command := fun p => (writeStdout "x" p, GoPipe.StatusNotOkay,
        some (GoPipe.GoError.other "boom"))
     let S2 : Command := fun p => (writeStdout "y" p, GoPipe.StatusOkay, none)
     Exec (some (NewList [S1, S2])) =
       some { Pipe := some { Stdin := some "", Stdout := some "xy", Stderr := some "",
                             err := none, statusCode := GoPipe.StatusOkay },
              Steps := [S1, S2], Err := none, StatusCode := GoPipe.StatusOkay,
              Controller := some ControllerKind.list }) := by
  refine ⟨runListSteps_append, ?_, by rfl⟩
  intro p cs c s0 e0
  have hsplit : runListSteps (cs ++ [c]) (p, s0, e0) = c (runListSteps cs (p, s0, e0)).1 := by
    rw [runListSteps_append]
    rcases runListSteps cs (p, s0, e0) with ⟨p', s', e'⟩
    rfl
  have hE : Exec (some { Pipe := some p, Steps := cs ++ [c], Err := e0,
                         StatusCode := s0, Controller := some ControllerKind.list }) =
      (let r := runListSteps (cs ++ [c]) (p, s0, e0)
       some { Pipe := some r.1, Steps := cs ++ [c],
              StatusCode := r.2.1,
              Err := if r.2.1 ≠ GoPipe.StatusOkay ∧ r.2.2 = none then
                  some (GoPipe.GoError.errNonZeroStatusCode "list" r.2.1)
                else r.2.2,
              Controller := some ControllerKind.list }) := rfl
  rw [hE]
  exact congrArg (fun r : Pipe × Int × Option GoPipe.GoError =>
    some ({ Pipe := some r.1, Steps := cs ++ [c],
            StatusCode := r.2.1,
            Err := if r.2.1 ≠ GoPipe.StatusOkay ∧ r.2.2 = none then
                some (GoPipe.GoError.errNonZeroStatusCode "list" r.2.1)
              else r.2.2,
            Controller := some ControllerKind.list } : Sequence)) hsplit

/-- Counterexample to C6 as stated: in the pipeline
[S1 returns (StatusNotOkay, nil), S2 writes "ran"], the claim says S2
never runs. In the code the loop tests only the returned error, which is
nil, so it continues: after `Exec` the final Stdout holds S2's write
(had the pipeline halted at S1, Stdout would still be the fresh empty
buffer installed by the rotation), the final status is S2's
`StatusOkay`, and the final error is nil. -/
theorem pipeline_nonzero_nil_error_cex :
    (Exec (some (NewPipeline
        [fun p => (p, GoPipe.StatusNotOkay, none),
         fun p => (writeStdout "ran" p, GoPipe.StatusOkay, none)]))).map
        (fun sq => (sq.Pipe.map Pipe.Stdout, sq.StatusCode, sq.Err)) =
      some (some (some "ran"), GoPipe.StatusOkay, none) ∧
    ¬ ((Exec (some (NewPipeline
        [fun p => (p, GoPipe.StatusNotOkay, none),
         fun p => (writeStdout "ran" p, GoPipe.StatusOkay, none)]))).map
        (fun sq => sq.Pipe.map Pipe.Stdout) = some (some (some ""))) := by
  exact ⟨rfl, by decide⟩

/-- C6 as amended: in the Pipeline controller a step that returns a
non-success status together with a nil error does not halt the pipeline —
the loop continues to the remaining steps whenever the step's returned
error is nil (whatever its status), and halts exactly when the returned
error is non-nil; the non-zero-status error is synthesized only after
the loop, from the final status/error pair. -/
theorem pipeline_halts_only_on_nonnil_error
    (c : Command) (cs : List Command) (p : Pipe) (s0 : Int)
    (e0 : Option GoPipe.GoError) :
    ((c p.Next).2.2 = none →
      runPipelineSteps (c :: cs) (p, s0, e0) = runPipelineSteps cs (c p.Next)) ∧
    ((c p.Next).2.2 ≠ none →
      runPipelineSteps (c :: cs) (p, s0, e0) = c p.Next) := by
  constructor
  · intro h
    simp [runPipelineSteps, h]
  · intro h
    simp [runPipelineSteps, h]

/-- Witness for C6's amended theorem: a concrete (non-success, nil-error)
step is followed by execution of the rest, and a concrete erroring step
halts. -/
theorem pipeline_halts_only_on_nonnil_error_witness :
    (runPipelineSteps
        [fun p => (p, GoPipe.StatusNotOkay, none),
         fun p => (writeStdout "ran" p, GoPipe.StatusOkay, none)]
        (NewPipe, GoPipe.StatusOkay, none) =
      runPipelineSteps [fun p => (writeStdout "ran" p, GoPipe.StatusOkay, none)]
        ((fun p => (p, GoPipe.StatusNotOkay, none)) NewPipe.Next)) ∧
    (runPipelineSteps
        [fun p => (p, GoPipe.StatusNotOkay, some (GoPipe.GoError.other "halt")),
         fun p => (writeStdout "ran" p, GoPipe.StatusOkay, none)]
        (NewPipe, GoPipe.StatusOkay, none) =
      (fun p => (p, GoPipe.StatusNotOkay, some (GoPipe.GoError.other "halt"))) NewPipe.Next) :=
  ⟨(pipeline_halts_only_on_nonnil_error
      (fun p => (p, GoPipe.StatusNotOkay, none))
      [fun p => (writeStdout "ran" p, GoPipe.StatusOkay, none)]
      NewPipe GoPipe.StatusOkay none).1 rfl,
   (pipeline_halts_only_on_nonnil_error
      (fun p => (p, GoPipe.StatusNotOkay, some (GoPipe.GoError.other "halt")))
      [fun p => (writeStdout "ran" p, GoPipe.StatusOkay, none)]
      NewPipe GoPipe.StatusOkay none).2 (by decide)⟩

/-- Counterexample to C7 as stated: a sequence whose context is present
but has nil Stdin, Stdout and Stderr is not a no-op. For both
controllers the guards check only for a nil sequence and a nil pipe, so
the single step still runs: after `Exec` the status is 5 (not the
default `StatusOkay`) and the error is the step's error. -/
theorem controller_missing_streams_cex :
    (Exec (some { Pipe := some { Stdin := none, Stdout := none, Stderr := none,
                                 err := none, statusCode := GoPipe.StatusOkay },
                  Steps := [fun p => (p, 5, some (GoPipe.GoError.other "ran"))],
                  Err := none, StatusCode := GoPipe.StatusOkay,
                  Controller := some ControllerKind.list })).map
        (fun sq => (sq.StatusCode, sq.Err)) =
      some (5, some (GoPipe.GoError.other "ran")) ∧
    (Exec (some { Pipe := some { Stdin := none, Stdout := none, Stderr := none,
                                 err := none, statusCode := GoPipe.StatusOkay },
                  Steps := [fun p => (p, 5, some (GoPipe.GoError.other "ran"))],
                  Err := none, StatusCode := GoPipe.StatusOkay,
                  Controller := some ControllerKind.pipeline })).map
        (fun sq => (sq.StatusCode, sq.Err)) =
      some (5, some (GoPipe.GoError.other "ran")) ∧
    (5 : Int) ≠ GoPipe.StatusOkay := by
  exact ⟨rfl, rfl, by decide⟩

/-- C7 as amended: `Exec` on an absent sequence, on a sequence with no
controller installed, or on a sequence whose context (pipe) is absent is
a no-op — nothing runs and the sequence is returned unchanged, status at
its default. (The controllers do not guard against a present context
with missing input/output streams; steps still run in that case, as the
counterexample shows.) -/
theorem exec_noop_guards :
    (Exec none = none) ∧
    (∀ sq : Sequence, sq.Controller = none → Exec (some sq) = some sq) ∧
    (∀ sq : Sequence, sq.Pipe = none → Exec (some sq) = some sq) := by
  refine ⟨rfl, ?_, ?_⟩
  · intro sq h
    simp [Exec, h]
  · intro sq h
    rcases hc : sq.Controller with _ | k
    · simp [Exec, hc]
    · cases k <;>
        simp [Exec, hc, ListControllerRun, PipelineControllerRun, h]

/-- Witness for C7's amended theorem at concrete sequences. -/
theorem exec_noop_guards_witness :
    (Exec (some { Pipe := some NewPipe, Steps := [], Err := none,
                  StatusCode := GoPipe.StatusOkay, Controller := none }) =
      some { Pipe := some NewPipe, Steps := [], Err := none,
             StatusCode := GoPipe.StatusOkay, Controller := none }) ∧
    (Exec (some { Pipe := none, Steps := [], Err := none,
                  StatusCode := GoPipe.StatusOkay,
                  Controller := some ControllerKind.pipeline }) =
      some { Pipe := none, Steps := [], Err := none,
             StatusCode := GoPipe.StatusOkay,
             Controller := some ControllerKind.pipeline }) :=
  ⟨exec_noop_guards.2.1 _ rfl, exec_noop_guards.2.2 _ rfl⟩

end V3
